import Mathlib

/-!
Verification of the behavioral contract of the `iso-9000` marketing page
(`src/App.tsx`). The page is a React component tree animated with the
`motion/react` library; the development below shallowly embeds the state,
event handling and animation configuration of each component, translating
numeric values to `ℚ` (and to `ℝ` where limits at infinity are involved).

Library primitives used by the page (`useTransform` piecewise-linear
interpolation, tween animations with delay, `whileInView`/`viewport`
one-shot triggers, `useSpring` second-order smoothing) are embedded by
their documented semantics, parameterized exactly by the configuration
values appearing in the source.

The file is organized as definitions first, then the theorems about them.
-/

/-! ## `useTransform` piecewise-linear interpolation

`useTransform(value, [i0, i1], [o0, o1])` maps `value` through the linear
map sending `i0 ↦ o0`, `i1 ↦ o1`, clamping outside the input range
(the library default `clamp: true`). -/

/-- Two-breakpoint clamped linear interpolation, as performed by
`useTransform(v, [i0, i1], [o0, o1])`. -/
def transform2 (i0 i1 o0 o1 p : ℚ) : ℚ :=
  if p ≤ i0 then o0
  else if i1 ≤ p then o1
  else o0 + (p - i0) / (i1 - i0) * (o1 - o0)

/-- Three-breakpoint clamped piecewise-linear interpolation, as performed by
`useTransform(v, [i0, i1, i2], [o0, o1, o2])`: the segment containing `p`
is interpolated linearly. -/
def transform3 (i0 i1 i2 o0 o1 o2 p : ℚ) : ℚ :=
  if p ≤ i1 then transform2 i0 i1 o0 o1 p else transform2 i1 i2 o1 o2 p

/-! ## CameraStage derived visual parameters (src/App.tsx lines 246-254)

```
const scale = useTransform(scrollYProgress, [0, 1], [1, 0.8]);
const rotate = useTransform(scrollYProgress, [0, 1], [0, -5]);
const y = useTransform(scrollYProgress, [0, 1], [0, -50]);
const opacity = useTransform(scrollYProgress, [0, 0.8, 1], [1, 1, 0]);
```
-/

/-- CameraStage `scale`: `useTransform(scrollYProgress, [0, 1], [1, 0.8])`. -/
def scaleOf (p : ℚ) : ℚ := transform2 0 1 1 (8/10) p

/-- CameraStage `rotate`: `useTransform(scrollYProgress, [0, 1], [0, -5])`. -/
def rotateOf (p : ℚ) : ℚ := transform2 0 1 0 (-5) p

/-- CameraStage `y`: `useTransform(scrollYProgress, [0, 1], [0, -50])`. -/
def yOf (p : ℚ) : ℚ := transform2 0 1 0 (-50) p

/-- CameraStage `opacity`: `useTransform(scrollYProgress, [0, 0.8, 1], [1, 1, 0])`. -/
def opacityOf (p : ℚ) : ℚ := transform3 0 (8/10) 1 1 1 0 p

/-! ## App root: the LoadedFlag (src/App.tsx lines 649-656)

```
const [isLoaded, setIsLoaded] = useState(false);
...
{!isLoaded && <FlashIntro onComplete={() => setIsLoaded(true)} />}
```

The only writer of `isLoaded` is the `onComplete` callback, which sets it
to `true`. We model the run of the root component as a fold over the
stream of events it can observe. -/

/-- An event observable by the App root: FlashIntro's completion callback
firing, or anything else (re-renders, scrolls, pointer events, ...). -/
inductive AppEvent where
  | flashComplete
  | other
  deriving DecidableEq

/-- One step of the App root's state: `() => setIsLoaded(true)` runs on
`flashComplete`; no other event writes `isLoaded`. -/
def appStep (s : Bool) : AppEvent → Bool
  | .flashComplete => true
  | .other => s

/-- The value of `isLoaded` after a sequence of events, starting from the
`useState(false)` initial value. -/
def appRun (es : List AppEvent) : Bool :=
  es.foldl appStep false

/-- Number of `false → true` transitions of `isLoaded` along an event
sequence starting in state `s`. -/
def countRises (s : Bool) : List AppEvent → Nat
  | [] => 0
  | e :: es => (if s = false ∧ appStep s e = true then 1 else 0) + countRises (appStep s e) es

/-! ## HUD state (src/App.tsx lines 140-154, 173-177)

```
const [time, setTime] = useState(new Date().toLocaleTimeString());
const [coords, setCoords] = useState({ x: 0, y: 0 });
...
const timer = setInterval(() => setTime(new Date().toLocaleTimeString()), 1000);
const handleMouseMove = (e: MouseEvent) => {
  setCoords({ x: e.clientX, y: e.clientY });
};
...
POS_X: {coords.x.toString().padStart(4, '0')}
POS_Y: {coords.y.toString().padStart(4, '0')}
```

`toLocaleTimeString` is kept abstract as a formatting function `fmt` from
the current clock reading to a string; event coordinates are integers
(`clientX`/`clientY` can be negative, e.g. while dragging with a button
held outside the window's top-left corner). -/

/-- The HUD's `coords` state cell. -/
structure Coords where
  x : Int
  y : Int
  deriving DecidableEq

/-- The mouse-move handler `handleMouseMove`: replaces the coords state
with the event's `clientX`/`clientY`, ignoring the previous value. -/
def handleMouseMove (_s : Coords) (e : Int × Int) : Coords :=
  Coords.mk e.1 e.2

/-- The `coords` cell after a sequence of mouse-move events, starting from
the `useState({ x: 0, y: 0 })` initial value. -/
def coordsRun (es : List (Int × Int)) : Coords :=
  es.foldl handleMouseMove (Coords.mk 0 0)

/-- JavaScript `String.prototype.padStart(n, c)`: pad on the left with `c`
up to length `n` (no-op when the string is already long enough). -/
def jsPadStart (s : String) (n : Nat) (c : Char) : String :=
  String.mk (List.replicate (n - s.length) c) ++ s

/-- The rendered `POS_X` line: `"POS_X: " + coords.x.toString().padStart(4, '0')`. -/
def posXDisplay (s : Coords) : String :=
  "POS_X: " ++ jsPadStart (toString s.x) 4 '0'

/-- The rendered `POS_Y` line: `"POS_Y: " + coords.y.toString().padStart(4, '0')`. -/
def posYDisplay (s : Coords) : String :=
  "POS_Y: " ++ jsPadStart (toString s.y) 4 '0'

/-- Clamping to non-negative integers, as the claim words it ("clamped to
non-negative integers"): spec-side definition, for comparison with the
code-side `coordsRun`/`posXDisplay`. -/
def clampNonneg (z : Int) : Int := max z 0

/-- The HUD's two state cells. -/
structure HudState where
  time : String
  coords : Coords

/-- HUD state at mount: `useState(new Date().toLocaleTimeString())` and
`useState({ x: 0, y: 0 })`, where `fmt` abstracts
`(d : Date) => d.toLocaleTimeString()` and `now` is the mount-time clock
reading. -/
def hudInit (fmt : Nat → String) (now : Nat) : HudState :=
  { time := fmt now, coords := Coords.mk 0 0 }

/-- One interval tick: `setTime(new Date().toLocaleTimeString())` at clock
reading `now`. -/
def hudTick (fmt : Nat → String) (now : Nat) (s : HudState) : HudState :=
  { s with time := fmt now }

/-! ## App render structure (src/App.tsx lines 31-48, 649-697)

FlashIntro's root element carries the class string below (line 38); the
main content `div` (line 669) is always rendered — `isLoaded` only selects
between the `opacity-100` and `opacity-0` utility classes on it — and
always contains the same fixed sequence of sections. -/

/-- The class tokens of FlashIntro's full-screen layer (line 38), in
source order. -/
def flashIntroClasses : List String :=
  ["fixed", "inset-0", "z-[100]", "bg-white", "pointer-events-none", "flex",
   "items-center", "justify-center"]

/-- The class string of FlashIntro's full-screen layer (line 38). -/
def flashIntroClassName : String :=
  "fixed inset-0 z-[100] bg-white pointer-events-none flex items-center justify-center"

/-- The sections composed inside the main content `div`, in source order. -/
inductive PageSection where
  | cameraStage
  | aboutSection
  | specsSection
  | gallery
  | contactSection
  | pageFooter
  deriving DecidableEq

/-- The App root's rendered output as a function of `isLoaded`: whether the
intro overlay is mounted (`{!isLoaded && <FlashIntro .../>}`), the class
chosen for the content wrapper, and the sections inside it. -/
structure AppView where
  introMounted : Bool
  contentOpacityClass : String
  contentSections : List PageSection

/-- The App root's render (lines 652-697): the intro is mounted iff
`!isLoaded`; the content `div` gets `opacity-100`/`opacity-0` by
`isLoaded`; the section list is unconditional. -/
def appRender (isLoaded : Bool) : AppView :=
  { introMounted := !isLoaded
    contentOpacityClass := if isLoaded then "opacity-100" else "opacity-0"
    contentSections :=
      [PageSection.cameraStage, PageSection.aboutSection, PageSection.specsSection,
       PageSection.gallery, PageSection.contactSection, PageSection.pageFooter] }

/-! ## HUD subscriptions (src/App.tsx lines 144-154)

The mount effect establishes `setInterval(..., 1000)` and
`window.addEventListener('mousemove', handleMouseMove)`; its cleanup runs
`clearInterval(timer)` and `removeEventListener('mousemove', ...)`. -/

/-- An external subscription held by the HUD. -/
inductive HudSubscription where
  | intervalTimer (ms : Nat)
  | mousemoveListener
  deriving DecidableEq

/-- Subscriptions established by the mount effect, in order. -/
def hudMountSubs : List HudSubscription :=
  [HudSubscription.intervalTimer 1000, HudSubscription.mousemoveListener]

/-- The effect's cleanup: `clearInterval(timer)` then
`removeEventListener('mousemove', handleMouseMove)`. -/
def hudCleanup (subs : List HudSubscription) : List HudSubscription :=
  (subs.erase (HudSubscription.intervalTimer 1000)).erase HudSubscription.mousemoveListener

/-- An external stimulus: an interval tick or a pointer move. -/
inductive HudStimulus where
  | tick
  | move (x y : Int)

/-- The subscription a stimulus is delivered through. -/
def stimulusSub : HudStimulus → HudSubscription
  | .tick => HudSubscription.intervalTimer 1000
  | .move _ _ => HudSubscription.mousemoveListener

/-- Number of handler invocations a stimulus stream causes while `active`
subscriptions are held: a stimulus invokes its handler iff its
subscription is active. -/
def invocations (active : List HudSubscription) (es : List HudStimulus) : Nat :=
  (es.filter (fun e => decide (stimulusSub e ∈ active))).length

/-! ## Gallery viewport reveal (src/App.tsx lines 412-428)

Every gallery card is rendered with

```
initial={{ opacity: 0, scale: 0.95 }}
whileInView={{ opacity: 1, scale: 1 }}
viewport={{ once: true, margin: "-10%" }}
```

Semantics of `whileInView` with `viewport.once`: entering the viewport
while the element is unrevealed plays the reveal transition and marks it
revealed; with `once: true` leaving the viewport does not reset the mark,
so later entries find it revealed and play nothing; with `once: false`
leaving resets the mark. -/

/-- The `once` flag of the gallery cards' `viewport` config (line 422). -/
def galleryViewportOnce : Bool := true

/-- The gallery's image records: title and parallax factor (lines 381-386). -/
def galleryImages : List (String × ℚ) :=
  [("Alpine Peak", -50), ("Mist Valley", 80), ("Azure Lake", -30),
   ("Golden Hour", 120), ("Deep Forest", -60), ("Open Field", 40)]

/-- A viewport visibility event for one gallery card. -/
inductive ViewportEvent where
  | enter
  | leave
  deriving DecidableEq

/-- One step of the `whileInView`/`viewport` trigger: given the `once` flag
and whether the reveal already played, returns the new mark and how many
times the reveal transition fires on this event. -/
def revealStep (once : Bool) (revealed : Bool) : ViewportEvent → Bool × Nat
  | .enter => if revealed then (true, 0) else (true, 1)
  | .leave => (if once then revealed else false, 0)

/-- Total number of reveal-transition firings over a visibility event
sequence, starting from the mark `revealed`. -/
def revealFires (once : Bool) (revealed : Bool) : List ViewportEvent → Nat
  | [] => 0
  | e :: es =>
    (revealStep once revealed e).2 + revealFires once (revealStep once revealed e).1 es

/-! ## BackgroundElements initial offsets (src/App.tsx lines 51-128)

Three motif groups. The aperture glyphs (3 instances) start at
`x = i*30+10 %`, `y = i*20+20 %`; the focus reticles (4 instances) start at
`x = i*25+5 %`, `y = i*15+10 %` — both pure functions of the index `i`.
The data strings (4 instances) start at `x = -10%` for even `i` and
`x = 110%` for odd `i`, but their `y` is `Math.random() * 100 + "%"` and
their duration is `30 + Math.random() * 20` — fresh random draws each run.
We model a run by the values `rng : Nat → ℚ` that `Math.random()` returns
for each data-string instance. -/

/-- An initial position offset, in percent units. -/
structure MotifInit where
  x : ℚ
  y : ℚ
  deriving DecidableEq

/-- Initial offset of aperture-glyph instance `i` (lines 58-63). -/
def apertureInit (i : Nat) : MotifInit :=
  MotifInit.mk ((i : ℚ) * 30 + 10) ((i : ℚ) * 20 + 20)

/-- Initial offset of focus-reticle instance `i` (lines 85-89). -/
def focusInit (i : Nat) : MotifInit :=
  MotifInit.mk ((i : ℚ) * 25 + 5) ((i : ℚ) * 15 + 10)

/-- Initial offset of data-string instance `i` (lines 110-114): side by
parity of `i`, vertical position from a fresh `Math.random()` draw `r`. -/
def dataInit (i : Nat) (r : ℚ) : MotifInit :=
  MotifInit.mk (if i % 2 = 0 then -10 else 110) (r * 100)

/-- Duration of a data-string instance (line 120): `30 + Math.random() * 20`
with a fresh draw `r`. -/
def dataDuration (r : ℚ) : ℚ := 30 + r * 20

/-- One render of BackgroundElements under the `Math.random()` outcomes
`rng`: the three motif groups' initial offsets (`[...Array(3)]`,
`[...Array(4)]`, `[...Array(4)]`). -/
structure BackgroundView where
  apertures : List MotifInit
  focuses : List MotifInit
  datas : List MotifInit

/-- BackgroundElements' initial offsets for a run whose `Math.random()`
draws for data-string instance `i` are `rng i`. -/
def backgroundRender (rng : Nat → ℚ) : BackgroundView :=
  { apertures := (List.range 3).map apertureInit
    focuses := (List.range 4).map focusInit
    datas := (List.range 4).map (fun i => dataInit i (rng i)) }

/-! ## FlashIntro fade (src/App.tsx lines 31-48)

```
<motion.div
  initial={{ opacity: 1 }}
  animate={{ opacity: 0 }}
  transition={{ duration: 1.5, ease: "easeOut", delay: 0.5 }}
  onAnimationComplete={onComplete}
  ...
```

Tween semantics: the value holds `initial` during `[0, delay]`, then moves
to `target` along the easing curve over `duration` seconds, holding
`target` from `delay + duration` on; `onAnimationComplete` fires once,
when the animation reaches its end at `delay + duration`. The easing curve
is abstracted as an arbitrary `e : ℚ → ℚ`. -/

/-- Configuration of a one-shot opacity tween. -/
structure Tween where
  initialValue : ℚ
  targetValue : ℚ
  duration : ℚ
  delay : ℚ

/-- FlashIntro's tween: `initial opacity 1`, `animate opacity 0`,
`duration 1.5`, `delay 0.5`. -/
def flashTween : Tween :=
  { initialValue := 1, targetValue := 0, duration := 3/2, delay := 1/2 }

/-- Tween value at time `t` since mount, with easing `e`. -/
def tweenValue (tw : Tween) (e : ℚ → ℚ) (t : ℚ) : ℚ :=
  if t ≤ tw.delay then tw.initialValue
  else if tw.delay + tw.duration ≤ t then tw.targetValue
  else tw.initialValue + e ((t - tw.delay) / tw.duration) * (tw.targetValue - tw.initialValue)

/-- The instant the tween finishes and `onAnimationComplete` fires. -/
def tweenCompletionTime (tw : Tween) : ℚ := tw.delay + tw.duration

/-- Cumulative number of `onAnimationComplete` invocations by time `t`: the
library fires the callback exactly once, when the animation completes. -/
def completeInvocations (tw : Tween) (t : ℚ) : Nat :=
  if tweenCompletionTime tw ≤ t then 1 else 0

/-! ## CameraStage spring smoothing (src/App.tsx lines 253-254)

```
const springScale = useSpring(scale, { stiffness: 100, damping: 30 });
const springRotate = useSpring(rotate, { stiffness: 100, damping: 30 });
```

`useSpring` animates toward its target `c` as a unit-mass damped spring:
`x'' = stiffness · (c - x) - damping · x'`. With stiffness `100` and
damping `30` the characteristic equation `r² + 30r + 100 = 0` has the two
distinct negative real roots `(-30 ± √500)/2` (`30² = 900 > 400 = 4·100`:
the spring is overdamped, not critically damped), and for initial position
`x0` and velocity `v0` the motion is the closed-form solution
`c + A·exp(r₁t) + B·exp(r₂t)` below, as computed by the library's analytic
spring solver; the theorems `springSol_zero`, `springVel_zero`,
`springSol_hasDerivAt` and `springVel_hasDerivAt` check it against the
spring law. -/

/-- The `stiffness` configured on both CameraStage springs. -/
def springStiffness : ℚ := 100

/-- The `damping` configured on both CameraStage springs. -/
def springDamping : ℚ := 30

/-- Larger characteristic root `(-30 + √500)/2` of `r² + 30r + 100 = 0`. -/
noncomputable def springRoot1 : ℝ := (-30 + Real.sqrt 500) / 2

/-- Smaller characteristic root `(-30 - √500)/2` of `r² + 30r + 100 = 0`. -/
noncomputable def springRoot2 : ℝ := (-30 - Real.sqrt 500) / 2

/-- Coefficient of `exp(r₁t)` fixed by the initial conditions. -/
noncomputable def springCoeffA (x0 v0 c : ℝ) : ℝ :=
  (v0 - springRoot2 * (x0 - c)) / (springRoot1 - springRoot2)

/-- Coefficient of `exp(r₂t)` fixed by the initial conditions. -/
noncomputable def springCoeffB (x0 v0 c : ℝ) : ℝ :=
  (springRoot1 * (x0 - c) - v0) / (springRoot1 - springRoot2)

/-- Spring position at time `t`, for held target `c`, initial position `x0`
and initial velocity `v0`. -/
noncomputable def springSol (x0 v0 c t : ℝ) : ℝ :=
  c + springCoeffA x0 v0 c * Real.exp (springRoot1 * t) +
    springCoeffB x0 v0 c * Real.exp (springRoot2 * t)

/-- Spring velocity at time `t`. -/
noncomputable def springVel (x0 v0 c t : ℝ) : ℝ :=
  springCoeffA x0 v0 c * (springRoot1 * Real.exp (springRoot1 * t)) +
    springCoeffB x0 v0 c * (springRoot2 * Real.exp (springRoot2 * t))

/-! ## Supporting lemmas -/

theorem appStep_true (e : AppEvent) : appStep true e = true := by
  cases e <;> rfl

theorem foldl_appStep_true (es : List AppEvent) : es.foldl appStep true = true := by
  induction es with
  | nil => rfl
  | cons e es ih => simp [List.foldl_cons, appStep_true, ih]

theorem countRises_true (es : List AppEvent) : countRises true es = 0 := by
  induction es with
  | nil => rfl
  | cons e es ih => cases e <;> simp [countRises, appStep, ih]

theorem invocations_nil (es : List HudStimulus) : invocations [] es = 0 := by
  unfold invocations
  induction es with
  | nil => rfl
  | cons e es ih => simp [List.filter, ih]

theorem revealFires_true (es : List ViewportEvent) :
    revealFires true true es = 0 := by
  induction es with
  | nil => rfl
  | cons e es ih => cases e <;> simp [revealFires, revealStep, ih]

theorem sqrt500_sq : Real.sqrt 500 ^ 2 = 500 :=
  Real.sq_sqrt (by norm_num)

theorem sqrt500_lt_30 : Real.sqrt 500 < 30 :=
  (Real.sqrt_lt' (by norm_num)).mpr (by norm_num)

theorem springRoot1_neg : springRoot1 < 0 := by
  unfold springRoot1
  have := sqrt500_lt_30
  linarith

theorem springRoot2_neg : springRoot2 < 0 := by
  unfold springRoot2
  have := Real.sqrt_nonneg (500 : ℝ)
  linarith

theorem springRoot_sub : springRoot1 - springRoot2 = Real.sqrt 500 := by
  unfold springRoot1 springRoot2
  ring

theorem springRoot_sub_ne : springRoot1 - springRoot2 ≠ 0 := by
  rw [springRoot_sub]
  have : (0 : ℝ) < Real.sqrt 500 := Real.sqrt_pos.mpr (by norm_num)
  linarith

theorem springRoot1_char : springRoot1 ^ 2 + 30 * springRoot1 + 100 = 0 := by
  unfold springRoot1
  linear_combination sqrt500_sq / 4

theorem springRoot2_char : springRoot2 ^ 2 + 30 * springRoot2 + 100 = 0 := by
  unfold springRoot2
  linear_combination sqrt500_sq / 4

/-- The closed form satisfies the initial position. -/
theorem springSol_zero (x0 v0 c : ℝ) : springSol x0 v0 c 0 = x0 := by
  unfold springSol springCoeffA springCoeffB
  rw [mul_zero, mul_zero, Real.exp_zero]
  field_simp [springRoot_sub_ne]
  ring

/-- The closed form satisfies the initial velocity. -/
theorem springVel_zero (x0 v0 c : ℝ) : springVel x0 v0 c 0 = v0 := by
  unfold springVel springCoeffA springCoeffB
  rw [mul_zero, mul_zero, Real.exp_zero]
  field_simp [springRoot_sub_ne]
  ring

theorem hasDerivAt_exp_mul (r t : ℝ) :
    HasDerivAt (fun u : ℝ => Real.exp (r * u)) (r * Real.exp (r * t)) t := by
  have h := ((hasDerivAt_id t).const_mul r).exp
  simpa [mul_comm] using h

/-- The position `springSol` has derivative `springVel`. -/
theorem springSol_hasDerivAt (x0 v0 c t : ℝ) :
    HasDerivAt (springSol x0 v0 c) (springVel x0 v0 c t) t := by
  have h1 := (hasDerivAt_exp_mul springRoot1 t).const_mul (springCoeffA x0 v0 c)
  have h2 := (hasDerivAt_exp_mul springRoot2 t).const_mul (springCoeffB x0 v0 c)
  have h := ((hasDerivAt_const t c).add h1).add h2
  have hv : springVel x0 v0 c t =
      0 + springCoeffA x0 v0 c * (springRoot1 * Real.exp (springRoot1 * t)) +
        springCoeffB x0 v0 c * (springRoot2 * Real.exp (springRoot2 * t)) := by
    unfold springVel
    ring
  rw [hv]
  exact h

/-- The velocity `springVel` has the derivative demanded by the spring law
with stiffness 100 and damping 30: the closed form is the motion of the
configured spring. -/
theorem springVel_hasDerivAt (x0 v0 c t : ℝ) :
    HasDerivAt (springVel x0 v0 c)
      (100 * (c - springSol x0 v0 c t) - 30 * springVel x0 v0 c t) t := by
  have h1 := (hasDerivAt_exp_mul springRoot1 t).const_mul
    (springCoeffA x0 v0 c * springRoot1)
  have h2 := (hasDerivAt_exp_mul springRoot2 t).const_mul
    (springCoeffB x0 v0 c * springRoot2)
  have h := h1.add h2
  have heq :
      springCoeffA x0 v0 c * springRoot1 * (springRoot1 * Real.exp (springRoot1 * t)) +
        springCoeffB x0 v0 c * springRoot2 * (springRoot2 * Real.exp (springRoot2 * t)) =
      100 * (c - springSol x0 v0 c t) - 30 * springVel x0 v0 c t := by
    unfold springSol springVel
    linear_combination
      (springCoeffA x0 v0 c * Real.exp (springRoot1 * t)) * springRoot1_char +
        (springCoeffB x0 v0 c * Real.exp (springRoot2 * t)) * springRoot2_char
  have hfun : (fun u => springCoeffA x0 v0 c * springRoot1 * Real.exp (springRoot1 * u) +
      springCoeffB x0 v0 c * springRoot2 * Real.exp (springRoot2 * u)) = springVel x0 v0 c := by
    funext u
    unfold springVel
    ring
  rw [heq, hfun] at h
  exact h

theorem tendsto_coeff_exp (a r : ℝ) (hr : r < 0) :
    Filter.Tendsto (fun t : ℝ => a * Real.exp (r * t)) Filter.atTop (nhds 0) := by
  have h1 : Filter.Tendsto (fun t : ℝ => r * t) Filter.atTop Filter.atBot :=
    (Filter.tendsto_const_mul_atBot_of_neg hr).mpr Filter.tendsto_id
  have h2 : Filter.Tendsto (fun t : ℝ => Real.exp (r * t)) Filter.atTop (nhds 0) :=
    Real.tendsto_exp_atBot.comp h1
  simpa using h2.const_mul a

/-- For any held target, the spring settles on it. -/
theorem springSol_tendsto (x0 v0 c : ℝ) :
    Filter.Tendsto (springSol x0 v0 c) Filter.atTop (nhds c) := by
  have hA := tendsto_coeff_exp (springCoeffA x0 v0 c) springRoot1 springRoot1_neg
  have hB := tendsto_coeff_exp (springCoeffB x0 v0 c) springRoot2 springRoot2_neg
  have hc : Filter.Tendsto (fun _ : ℝ => c) Filter.atTop (nhds c) := tendsto_const_nhds
  have h := (hc.add hA).add hB
  simpa [springSol] using h

/-! ## Claim theorems -/

/-- C1: for every scroll progress `p ∈ [0,1]`, CameraStage's derived values
are the piecewise-linear interpolations over the stated breakpoints:
`scale p = 1 - p/5` (mapping `[0,1]` onto `[1, 0.8]`), `rotate p = -5p`,
`y p = -50p`, and opacity holds `1` up to `p = 0.8` then decreases linearly
as `5(1-p)` reaching `0` at `p = 1`. -/
theorem C1_cameraStage_transforms (p : ℚ) (h0 : 0 ≤ p) (h1 : p ≤ 1) :
    scaleOf p = 1 - p / 5 ∧
    rotateOf p = -5 * p ∧
    yOf p = -50 * p ∧
    (p ≤ 8/10 → opacityOf p = 1) ∧
    (8/10 ≤ p → opacityOf p = 5 * (1 - p)) := by
  refine ⟨?_, ?_, ?_, ?_, ?_⟩
  · unfold scaleOf transform2
    split_ifs with ha hb
    · have : p = 0 := le_antisymm ha h0
      rw [this]; norm_num
    · have : p = 1 := le_antisymm h1 hb
      rw [this]; norm_num
    · ring
  · unfold rotateOf transform2
    split_ifs with ha hb
    · have : p = 0 := le_antisymm ha h0
      rw [this]; norm_num
    · have : p = 1 := le_antisymm h1 hb
      rw [this]; norm_num
    · ring
  · unfold yOf transform2
    split_ifs with ha hb
    · have : p = 0 := le_antisymm ha h0
      rw [this]; norm_num
    · have : p = 1 := le_antisymm h1 hb
      rw [this]; norm_num
    · ring
  · intro hp
    unfold opacityOf transform3 transform2
    split_ifs <;> ring
  · intro hp
    unfold opacityOf transform3 transform2
    rcases eq_or_lt_of_le hp with heq | hlt
    · rw [← heq]; norm_num
    · simp only [if_neg (not_le.mpr hlt)]
      split_ifs with hc
      · have : p = 1 := le_antisymm h1 hc
        rw [this]; norm_num
      · field_simp; ring

/-- Witness for C1 at `p = 9/10`. -/
theorem C1_witness :
    (0 : ℚ) ≤ 9/10 ∧ (9/10 : ℚ) ≤ 1 ∧
    (scaleOf (9/10) = 1 - (9/10) / 5 ∧
     rotateOf (9/10) = -5 * (9/10) ∧
     yOf (9/10) = -50 * (9/10) ∧
     ((9/10 : ℚ) ≤ 8/10 → opacityOf (9/10) = 1) ∧
     ((8/10 : ℚ) ≤ 9/10 → opacityOf (9/10) = 5 * (1 - 9/10))) :=
  ⟨by norm_num, by norm_num,
   C1_cameraStage_transforms (9/10) (by norm_num) (by norm_num)⟩

/-- C2: `isLoaded` starts `false` (empty event history), rises `false → true`
exactly once when FlashIntro's completion callback fires and never
otherwise (zero rises when the callback never fires), and never reverts:
once some event history has made it `true`, every extension leaves it
`true`. -/
theorem C2_loadedFlag (es : List AppEvent) :
    appRun [] = false ∧
    countRises false es = (if AppEvent.flashComplete ∈ es then 1 else 0) ∧
    (∀ more, appRun es = true → appRun (es ++ more) = true) := by
  refine ⟨rfl, ?_, ?_⟩
  · induction es with
    | nil => rfl
    | cons e es ih =>
      cases e with
      | flashComplete =>
        simp [countRises, appStep, countRises_true, List.mem_cons]
      | other =>
        simp only [countRises, appStep, List.mem_cons]
        rw [ih]
        simp
  · intro more h
    unfold appRun at h ⊢
    rw [List.foldl_append, h, foldl_appStep_true]

/-- Witness for C2: after the callback fires, any further events leave the
flag `true`. -/
theorem C2_witness : appRun ([AppEvent.flashComplete] ++ [AppEvent.other]) = true :=
  (C2_loadedFlag [AppEvent.flashComplete]).2.2 [AppEvent.other] rfl

/-- Counterexample to C3: after a pointer-move to `(-5, 300)` (a negative
`clientX`, as delivered while dragging beyond the window's left edge), the
HUD renders the stored coordinate verbatim — `"POS_X: 00-5"` — not the
clamped value `"POS_X: 0000"` the claim requires. -/
theorem C3_counterexample :
    posXDisplay (coordsRun [((-5 : Int), (300 : Int))]) = "POS_X: 00-5" ∧
    posXDisplay (coordsRun [((-5 : Int), (300 : Int))]) ≠
      "POS_X: " ++ jsPadStart (toString (clampNonneg (-5))) 4 '0' := by
  constructor
  · rfl
  · decide

/-- C3 (amended): the HUD displays the most recent pointer-move event's
coordinates verbatim (no clamping is applied; on non-negative coordinates
this agrees with the claim), with default `(0, 0)` before any event, each
coordinate zero-padded to at least four characters; a move to `(512, 300)`
renders `"POS_X: 0512"` and `"POS_Y: 0300"`. -/
theorem C3_hud_coords (es : List (Int × Int)) (x y : Int) :
    coordsRun [] = Coords.mk 0 0 ∧
    coordsRun (es ++ [(x, y)]) = Coords.mk x y ∧
    posXDisplay (coordsRun [((512 : Int), (300 : Int))]) = "POS_X: 0512" ∧
    posYDisplay (coordsRun [((512 : Int), (300 : Int))]) = "POS_Y: 0300" := by
  refine ⟨rfl, ?_, rfl, rfl⟩
  unfold coordsRun
  rw [List.foldl_append]
  rfl

/-- C4: FlashIntro's layer is fully opaque at mount and stays opaque
through the whole 0.5s delay (the fade begins only afterwards), the fade
finishes at `0.5 + 1.5 = 2` seconds after mount with opacity 0 from then
on, and `onComplete` has fired exactly once by any time past 2s and never
more than once. -/
theorem C4_flashIntro (e : ℚ → ℚ) (t u : ℚ) (ht : t ≤ 1/2) (hu : 2 ≤ u) :
    tweenValue flashTween e t = 1 ∧
    tweenValue flashTween e u = 0 ∧
    tweenCompletionTime flashTween = 2 ∧
    completeInvocations flashTween u = 1 ∧
    (∀ v, completeInvocations flashTween v ≤ 1) ∧
    completeInvocations flashTween 0 = 0 := by
  have hc : tweenCompletionTime flashTween = 2 := by
    unfold tweenCompletionTime flashTween
    norm_num
  refine ⟨?_, ?_, hc, ?_, ?_, ?_⟩
  · unfold tweenValue flashTween
    rw [if_pos]
    exact ht
  · have h1 : ¬ u ≤ flashTween.delay := by
      show ¬ u ≤ (1/2 : ℚ)
      exact not_le.mpr (by linarith)
    have h2 : flashTween.delay + flashTween.duration ≤ u := by
      show (1/2 : ℚ) + 3/2 ≤ u
      linarith
    unfold tweenValue
    rw [if_neg h1, if_pos h2]
    rfl
  · unfold completeInvocations
    rw [hc, if_pos hu]
  · intro v
    unfold completeInvocations
    split_ifs <;> norm_num
  · unfold completeInvocations
    rw [hc]
    norm_num

/-- Witness for C4 at `t = 0`, `u = 2`, identity easing. -/
theorem C4_witness :
    (0 : ℚ) ≤ 1/2 ∧ (2 : ℚ) ≤ 2 ∧
    (tweenValue flashTween (fun q => q) 0 = 1 ∧
     tweenValue flashTween (fun q => q) 2 = 0 ∧
     tweenCompletionTime flashTween = 2 ∧
     completeInvocations flashTween 2 = 1 ∧
     (∀ v, completeInvocations flashTween v ≤ 1) ∧
     completeInvocations flashTween 0 = 0) :=
  ⟨by norm_num, le_refl 2,
   C4_flashIntro (fun q => q) 0 2 (by norm_num) (le_refl 2)⟩

/-- C5: in every reachable state (either value of `isLoaded`), the intro
layer is pointer-transparent (`pointer-events-none` is among its classes)
and the main content subtree is present in the document with all its
sections, identical whether or not the completion callback ever fired —
`isLoaded` changes only the opacity class. -/
theorem C5_intro_never_blocks (isLoaded : Bool) :
    flashIntroClassName = String.intercalate " " flashIntroClasses ∧
    "pointer-events-none" ∈ flashIntroClasses ∧
    (appRender isLoaded).contentSections = (appRender true).contentSections ∧
    (appRender isLoaded).contentSections ≠ [] ∧
    PageSection.gallery ∈ (appRender isLoaded).contentSections := by
  refine ⟨rfl, by decide, ?_, ?_, ?_⟩ <;> cases isLoaded <;> decide

/-- C6: the mount effect establishes exactly the two subscriptions (the
1000ms interval and the global mousemove listener), the cleanup removes
both, and after cleanup no stimulus stream ever invokes either handler
again. -/
theorem C6_hud_subscriptions :
    hudMountSubs.length = 2 ∧
    hudMountSubs =
      [HudSubscription.intervalTimer 1000, HudSubscription.mousemoveListener] ∧
    hudCleanup hudMountSubs = [] ∧
    (∀ es : List HudStimulus, invocations (hudCleanup hudMountSubs) es = 0) := by
  refine ⟨rfl, rfl, by decide, fun es => ?_⟩
  have h : hudCleanup hudMountSubs = [] := by decide
  rw [h, invocations_nil]

/-- Counterexample to C7: the configured spring (stiffness 100, damping 30)
is not critically damped — for unit mass critical damping requires
`damping² = 4·stiffness`, but `30² = 900 ≠ 400 = 4·100`. -/
theorem C7_counterexample :
    springStiffness = 100 ∧ springDamping = 30 ∧
    ¬ springDamping ^ 2 = 4 * springStiffness := by
  refine ⟨rfl, rfl, ?_⟩
  rw [springDamping, springStiffness]
  norm_num

/-- C7 (amended): the spring filter on CameraStage's scale and rotation has
stiffness 100 and damping 30 and is overdamped (`damping² > 4·stiffness`),
and for any held scroll progress `p` its smoothed output converges, as
time → ∞, to the raw piecewise-linearly interpolated scale and rotation
values, from any initial position and velocity. -/
theorem C7_spring_converges (x0 v0 : ℝ) (p : ℚ) :
    springStiffness = 100 ∧ springDamping = 30 ∧
    springDamping ^ 2 > 4 * springStiffness ∧
    Filter.Tendsto (springSol x0 v0 ((scaleOf p : ℚ) : ℝ)) Filter.atTop
      (nhds ((scaleOf p : ℚ) : ℝ)) ∧
    Filter.Tendsto (springSol x0 v0 ((rotateOf p : ℚ) : ℝ)) Filter.atTop
      (nhds ((rotateOf p : ℚ) : ℝ)) := by
  refine ⟨rfl, rfl, ?_, springSol_tendsto _ _ _, springSol_tendsto _ _ _⟩
  rw [springDamping, springStiffness]
  norm_num

/-- C8: with the gallery's `once: true` viewport config, a card's reveal
transition fires exactly once over any visibility history containing an
`enter` (at the first entry) and never fires otherwise — leaving and
re-entering the viewport never replays it. The config applies to all six
gallery cards, which are rendered from the fixed image list. -/
theorem C8_gallery_reveal_once (es : List ViewportEvent) :
    revealFires galleryViewportOnce false es =
      (if ViewportEvent.enter ∈ es then 1 else 0) ∧
    galleryViewportOnce = true ∧
    galleryImages.length = 6 := by
  refine ⟨?_, rfl, rfl⟩
  show revealFires true false es = _
  induction es with
  | nil => rfl
  | cons e es ih =>
    cases e with
    | enter =>
      simp [revealFires, revealStep, revealFires_true, List.mem_cons]
    | leave =>
      simp [revealFires, revealStep, List.mem_cons, ih]

/-- Counterexample to C9: two runs whose `Math.random()` draws differ
(`1/4` versus `1/2`) give data-string instance 0 different initial
offsets (`y = 25%` versus `y = 50%`), so the data-string group's initial
position offsets are not a deterministic function of the instance index. -/
theorem C9_counterexample :
    (backgroundRender (fun _ => 1/4)).datas ≠
      (backgroundRender (fun _ => 1/2)).datas ∧
    dataInit 0 (1/4) ≠ dataInit 0 (1/2) := by
  have key : dataInit 0 ((1 : ℚ)/4) ≠ dataInit 0 ((1 : ℚ)/2) := by
    intro h
    rw [dataInit, dataInit, MotifInit.mk.injEq] at h
    have hy : (1/4 : ℚ) * 100 = (1/2 : ℚ) * 100 := h.2
    norm_num at hy
  refine ⟨?_, key⟩
  intro h
  apply key
  have h4 : (backgroundRender (fun _ => (1 : ℚ)/4)).datas =
      [dataInit 0 (1/4), dataInit 1 (1/4), dataInit 2 (1/4), dataInit 3 (1/4)] := by
    simp [backgroundRender, List.range_succ]
  have h2 : (backgroundRender (fun _ => (1 : ℚ)/2)).datas =
      [dataInit 0 (1/2), dataInit 1 (1/2), dataInit 2 (1/2), dataInit 3 (1/2)] := by
    simp [backgroundRender, List.range_succ]
  rw [h4, h2] at h
  injection h

/-- C9 (amended): across any two runs (any two `Math.random()` outcome
streams), the aperture-glyph and focus-reticle groups' initial offsets are
identical — deterministic functions of the instance index — and so is the
data-string group's horizontal starting side; only the data-string group's
vertical offset (and its duration) depends on the random draws. -/
theorem C9_background_determinism (rng rng' : Nat → ℚ) :
    (backgroundRender rng).apertures = (backgroundRender rng').apertures ∧
    (backgroundRender rng).focuses = (backgroundRender rng').focuses ∧
    (backgroundRender rng).datas.map MotifInit.x =
      (backgroundRender rng').datas.map MotifInit.x ∧
    (backgroundRender rng).apertures = [apertureInit 0, apertureInit 1, apertureInit 2] ∧
    (backgroundRender rng).focuses =
      [focusInit 0, focusInit 1, focusInit 2, focusInit 3] := by
  refine ⟨rfl, rfl, ?_, rfl, rfl⟩
  simp [backgroundRender, dataInit]

/-- C10: the clock string is initialized at mount by applying the very
formatting function the periodic ticks use to the mount-time clock
reading — the initial display equals what a tick at the same instant would
produce, so a valid time-of-day string shows before the first 1000ms tick. -/
theorem C10_hud_clock_init (fmt : Nat → String) (now : Nat) (s : HudState) :
    (hudInit fmt now).time = fmt now ∧
    (hudInit fmt now).time = (hudTick fmt now s).time ∧
    (hudInit fmt now).coords = Coords.mk 0 0 :=
  ⟨rfl, rfl, rfl⟩
